import Mathlib

/-!
Shallow embedding of the `project-spearhead` domain model
(`src/definitions/FlightPlan.py`, `Flight.py`, `Sector.py`, `Scenario.py`)
and proofs of the specification claims about it.

Conventions of the embedding:
* Python numbers are modelled exactly as rationals (`ℚ`); where the int/float
  distinction of Python is observable (the `int(...)` truncation applied to
  `preference_rank`, the `float(...)` coercion applied to `cost_index`) a
  tagged value `PyNum` records the tag.
* A raised Python exception is modelled by `Except PyError`; `ValueError`
  (the spec's `ValidationError`) carries its message, and an `IndexError`
  (raised by `shape[1]` on a one-dimensional numpy array) is a distinct
  constructor.
* `np.array` applied to a list of lists yields a two-dimensional array when
  the rows all have equal length and the list is non-empty, a one-dimensional
  (length 0) array when the list is empty, and raises a `ValueError` about an
  inhomogeneous shape otherwise; this is modelled by `npArray2`.
* Mutation is modelled by explicit state passing: a mutating method takes the
  object and returns the updated object (inside `Except` when it can raise).
* Python reference/aliasing semantics, needed only for the defensive-copy
  claims about accessors, are modelled separately by a small heap of list
  cells (`PyHeap`).
-/

namespace Spearhead

/-- Model of a raised Python exception: `ValueError` (the spec's
`ValidationError`) with its message, or `IndexError` (as raised by reading
`shape[1]` of a one-dimensional numpy array). -/
inductive PyError where
  | valueError (msg : String)
  | indexError
deriving DecidableEq, Repr

deriving instance DecidableEq for Except

/-- Model of a Python number: an `int` or a `float`, with its exact value. -/
inductive PyNum where
  | intv (n : ℤ)
  | floatv (q : ℚ)
deriving DecidableEq, Repr

/-- Numeric value of a Python number. -/
def PyNum.val : PyNum → ℚ
  | .intv n => (n : ℚ)
  | .floatv q => q

/-- Model of Python `float(x)` on a number: the value, tagged float. -/
def pyFloat (x : PyNum) : PyNum := .floatv x.val

/-- Model of Python `int(q)` on a number: truncation toward zero. -/
def pyIntTrunc (q : ℚ) : ℤ := if 0 ≤ q then ⌊q⌋ else ⌈q⌉

/-- Model of a numpy array as produced by `np.array` on the inputs the code
converts: one-dimensional (a flat list of numbers) or two-dimensional
(`rows` rows, each of length `m`). -/
inductive NpArray where
  | oneD (data : List ℚ)
  | twoD (rows : List (List ℚ)) (m : ℕ)
deriving DecidableEq, Repr

/-- Model of `np.array` on a list of lists of numbers: an empty list yields a
one-dimensional empty array (shape `(0,)`); a non-empty list whose rows all
share the length of the first row yields a two-dimensional array; a ragged
list raises numpy's inhomogeneous-shape `ValueError`. -/
def npArray2 : List (List ℚ) → Except PyError NpArray
  | [] => .ok (.oneD [])
  | r :: rs =>
    if ∀ row ∈ r :: rs, row.length = r.length then
      .ok (.twoD (r :: rs) r.length)
    else
      .error (.valueError "setting an array element with a sequence (inhomogeneous shape)")

/-- Model of `a.shape[1]`: the column count of a two-dimensional array; on a
one-dimensional array the shape tuple has one entry and the read raises
`IndexError`. -/
def NpArray.shape1 : NpArray → Except PyError ℕ
  | .oneD _ => .error .indexError
  | .twoD _ m => .ok m

/-- Model of `len(a)`: the first dimension of the array. -/
def NpArray.len : NpArray → ℕ
  | .oneD d => d.length
  | .twoD rows _ => rows.length

/-- The longitude entry `row[0]` of a waypoint row. -/
def wpLon (row : List ℚ) : ℚ := row.getD 0 0

/-- The latitude entry `row[1]` of a waypoint row. -/
def wpLat (row : List ℚ) : ℚ := row.getD 1 0

/-- Error message of `FlightPlan._validate_waypoints` for a wrong column count. -/
def colMsg : String := "Waypoints must be a n x 2 matrix"

/-- Error message of `FlightPlan._validate_waypoints` for a longitude out of range. -/
def lonMsg : String := "Longitude must be between -180 and 180 degrees"

/-- Error message of `FlightPlan._validate_waypoints` for a latitude out of range. -/
def latMsg : String := "Latitude must be between -90 and 90 degrees"

/-- Error message of `FlightPlan._validate_dimensions` for an altitude count mismatch. -/
def altMsg : String := "Number of altitudes must match number of waypoints"

/-- Error message of `FlightPlan._validate_dimensions` for a speed count mismatch. -/
def spdMsg : String := "Number of speeds must match number of waypoints"

/-- Model of `FlightPlan._validate_waypoints` (FlightPlan.py lines 38-49):
reads `shape[1]` (raising `IndexError` on a one-dimensional array), requires
exactly 2 columns, then checks all longitudes (column 0) lie in
`[-180, 180]`, then all latitudes (column 1) lie in `[-90, 90]`. -/
def validateWaypoints : NpArray → Except PyError Unit
  | .oneD _ => .error .indexError
  | .twoD rows m =>
    if m ≠ 2 then .error (.valueError colMsg)
    else if ¬ (∀ row ∈ rows, -180 ≤ wpLon row ∧ wpLon row ≤ 180) then
      .error (.valueError lonMsg)
    else if ¬ (∀ row ∈ rows, -90 ≤ wpLat row ∧ wpLat row ≤ 90) then
      .error (.valueError latMsg)
    else .ok ()

/-- Model of `FlightPlan._validate_dimensions` (FlightPlan.py lines 51-57):
the altitude and speed arrays must each have as many entries as the waypoint
array has rows. -/
def validateDimensions (wp : NpArray) (altitudes speeds : List ℚ) : Except PyError Unit :=
  if altitudes.length ≠ wp.len then .error (.valueError altMsg)
  else if speeds.length ≠ wp.len then .error (.valueError spdMsg)
  else .ok ()

/-- The validated `FlightPlan` object: its waypoint rows (each `[lon, lat]`),
altitude and speed profiles, category, and the clamped lenient fields. -/
structure FlightPlan where
  waypoints : List (List ℚ)
  altitudes : List ℚ
  speeds : List ℚ
  aircraft_category : String
  delay_allowance : ℚ
  preference_rank : ℤ
deriving DecidableEq, Repr

/-- Model of `FlightPlan.__init__` (FlightPlan.py lines 5-34): convert the
waypoints with `np.array` and validate them, convert altitudes and speeds and
validate the dimensions, then store the category, `max(0, delay_allowance)`
and `max(1, int(preference_rank))`. -/
def mkFlightPlan (waypoints : List (List ℚ)) (altitudes speeds : List ℚ)
    (aircraft_category : String) (delay_allowance : ℚ) (preference_rank : PyNum) :
    Except PyError FlightPlan :=
  match npArray2 waypoints with
  | .error e => .error e
  | .ok wp =>
    match validateWaypoints wp with
    | .error e => .error e
    | .ok _ =>
      match validateDimensions wp altitudes speeds with
      | .error e => .error e
      | .ok _ =>
        .ok { waypoints := waypoints
              altitudes := altitudes
              speeds := speeds
              aircraft_category := aircraft_category
              delay_allowance := max 0 delay_allowance
              preference_rank := max 1 (pyIntTrunc preference_rank.val) }

/-- Model of `FlightPlan.__len__` (FlightPlan.py lines 89-91): the number of
waypoints. -/
def FlightPlan.len (fp : FlightPlan) : ℕ := fp.waypoints.length

/-- Whether an exception is a `ValueError` (the spec's `ValidationError`). -/
def PyError.isValueError : PyError → Bool
  | .valueError _ => true
  | .indexError => false

/-- Spec-side validity predicate, written from the spec's words for
comparison with the source-derived constructor: the waypoint sequence is a
non-empty sequence of `[longitude, latitude]` pairs with every longitude in
`[-180, 180]` and every latitude in `[-90, 90]`, and the altitude and speed
sequences each have the waypoint count as length. -/
def specValidFlightPlanInput (waypoints : List (List ℚ)) (altitudes speeds : List ℚ) : Prop :=
  waypoints ≠ [] ∧
  (∀ row ∈ waypoints, ∃ lon lat, row = [lon, lat] ∧
    -180 ≤ lon ∧ lon ≤ 180 ∧ -90 ≤ lat ∧ lat ≤ 90) ∧
  altitudes.length = waypoints.length ∧ speeds.length = waypoints.length

theorem wpLon_pair (a b : ℚ) : wpLon [a, b] = a := rfl

theorem wpLat_pair (a b : ℚ) : wpLat [a, b] = b := rfl

/-- Convenience lemma: no value is produced alongside an error result. -/
theorem not_ok_of_eq_error {α : Type} {x : Except PyError α} {e : PyError}
    (h : x = .error e) : ¬ ∃ a, x = .ok a := by
  rintro ⟨a, ha⟩
  rw [h] at ha
  cases ha

/-- Characterization of a successful `FlightPlan` construction in terms of
the raw input lists. -/
theorem mkFlightPlan_ok_iff (waypoints : List (List ℚ)) (altitudes speeds : List ℚ)
    (cat : String) (d : ℚ) (r : PyNum) :
    (∃ fp, mkFlightPlan waypoints altitudes speeds cat d r = .ok fp) ↔
      (waypoints ≠ [] ∧ (∀ row ∈ waypoints, row.length = 2) ∧
       (∀ row ∈ waypoints, -180 ≤ wpLon row ∧ wpLon row ≤ 180) ∧
       (∀ row ∈ waypoints, -90 ≤ wpLat row ∧ wpLat row ≤ 90) ∧
       altitudes.length = waypoints.length ∧ speeds.length = waypoints.length) := by
  cases waypoints with
  | nil =>
    have hres : mkFlightPlan [] altitudes speeds cat d r = .error .indexError := by
      simp [mkFlightPlan, npArray2, validateWaypoints]
    exact iff_of_false (not_ok_of_eq_error hres) (by simp)
  | cons rr rs =>
    by_cases hrect : ∀ row ∈ rr :: rs, row.length = rr.length
    case neg =>
      have hres : mkFlightPlan (rr :: rs) altitudes speeds cat d r
          = .error (.valueError
              "setting an array element with a sequence (inhomogeneous shape)") := by
        have harr : npArray2 (rr :: rs)
            = .error (.valueError
                "setting an array element with a sequence (inhomogeneous shape)") := by
          rw [npArray2, if_neg hrect]
        simp [mkFlightPlan, harr]
      refine iff_of_false (not_ok_of_eq_error hres) ?_
      rintro ⟨-, h2, -⟩
      exact hrect fun row hr => by rw [h2 row hr, h2 rr (List.mem_cons_self rr rs)]
    case pos =>
      have harr : npArray2 (rr :: rs) = .ok (.twoD (rr :: rs) rr.length) := by
        rw [npArray2, if_pos hrect]
      by_cases hcol : rr.length = 2
      case neg =>
        have hval : validateWaypoints (.twoD (rr :: rs) rr.length)
            = .error (.valueError colMsg) := by
          rw [validateWaypoints, if_pos hcol]
        have hres : mkFlightPlan (rr :: rs) altitudes speeds cat d r
            = .error (.valueError colMsg) := by
          simp [mkFlightPlan, harr, hval]
        refine iff_of_false (not_ok_of_eq_error hres) ?_
        rintro ⟨-, h2, -⟩
        exact hcol (h2 rr (List.mem_cons_self rr rs))
      case pos =>
        obtain ⟨a, b, rfl⟩ := List.length_eq_two.mp hcol
        by_cases hlon : ∀ row ∈ [a, b] :: rs, -180 ≤ wpLon row ∧ wpLon row ≤ 180
        case neg =>
          have hval : validateWaypoints (.twoD ([a, b] :: rs) 2)
              = .error (.valueError lonMsg) := by
            rw [validateWaypoints, if_neg (by simp), if_pos hlon]
          have hres : mkFlightPlan ([a, b] :: rs) altitudes speeds cat d r
              = .error (.valueError lonMsg) := by
            simp [mkFlightPlan, harr, hval]
          refine iff_of_false (not_ok_of_eq_error hres) ?_
          rintro ⟨-, -, hl, -⟩
          exact hlon hl
        case pos =>
          by_cases hlat : ∀ row ∈ [a, b] :: rs, -90 ≤ wpLat row ∧ wpLat row ≤ 90
          case neg =>
            have hval : validateWaypoints (.twoD ([a, b] :: rs) 2)
                = .error (.valueError latMsg) := by
              rw [validateWaypoints, if_neg (by simp), if_neg (not_not_intro hlon),
                if_pos hlat]
            have hres : mkFlightPlan ([a, b] :: rs) altitudes speeds cat d r
                = .error (.valueError latMsg) := by
              simp [mkFlightPlan, harr, hval]
            refine iff_of_false (not_ok_of_eq_error hres) ?_
            rintro ⟨-, -, -, hl, -⟩
            exact hlat hl
          case pos =>
            have hval : validateWaypoints (.twoD ([a, b] :: rs) 2) = .ok () := by
              rw [validateWaypoints, if_neg (by simp), if_neg (not_not_intro hlon),
                if_neg (not_not_intro hlat)]
            by_cases halt : altitudes.length = ([a, b] :: rs).length
            case neg =>
              have hdim : validateDimensions (.twoD ([a, b] :: rs) 2) altitudes speeds
                  = .error (.valueError altMsg) := by
                rw [validateDimensions]
                simp only [NpArray.len]
                rw [if_pos halt]
              have hres : mkFlightPlan ([a, b] :: rs) altitudes speeds cat d r
                  = .error (.valueError altMsg) := by
                simp [mkFlightPlan, harr, hval, hdim]
              refine iff_of_false (not_ok_of_eq_error hres) ?_
              rintro ⟨-, -, -, -, hl, -⟩
              exact halt hl
            case pos =>
              by_cases hspd : speeds.length = ([a, b] :: rs).length
              case neg =>
                have hdim : validateDimensions (.twoD ([a, b] :: rs) 2) altitudes speeds
                    = .error (.valueError spdMsg) := by
                  rw [validateDimensions]
                  simp only [NpArray.len]
                  rw [if_neg (not_not_intro halt), if_pos hspd]
                have hres : mkFlightPlan ([a, b] :: rs) altitudes speeds cat d r
                    = .error (.valueError spdMsg) := by
                  simp [mkFlightPlan, harr, hval, hdim]
                refine iff_of_false (not_ok_of_eq_error hres) ?_
                rintro ⟨-, -, -, -, -, hl⟩
                exact hspd hl
              case pos =>
                have hdim : validateDimensions (.twoD ([a, b] :: rs) 2) altitudes speeds
                    = .ok () := by
                  rw [validateDimensions]
                  simp only [NpArray.len]
                  rw [if_neg (not_not_intro halt), if_neg (not_not_intro hspd)]
                have hall2 : ∀ row ∈ [a, b] :: rs, row.length = 2 := fun row hr =>
                  hrect row hr
                have hres : mkFlightPlan ([a, b] :: rs) altitudes speeds cat d r
                    = .ok { waypoints := [a, b] :: rs, altitudes := altitudes,
                            speeds := speeds, aircraft_category := cat,
                            delay_allowance := max 0 d,
                            preference_rank := max 1 (pyIntTrunc r.val) } := by
                  simp [mkFlightPlan, harr, hval, hdim]
                exact iff_of_true ⟨_, hres⟩
                  ⟨List.cons_ne_nil _ _, hall2, hlon, hlat, halt, hspd⟩

/-- A successful construction stores exactly the inputs, with the two lenient
fields clamped. -/
theorem mkFlightPlan_ok_fields {waypoints : List (List ℚ)} {altitudes speeds : List ℚ}
    {cat : String} {d : ℚ} {r : PyNum} {fp : FlightPlan}
    (h : mkFlightPlan waypoints altitudes speeds cat d r = .ok fp) :
    fp = { waypoints := waypoints, altitudes := altitudes, speeds := speeds,
           aircraft_category := cat, delay_allowance := max 0 d,
           preference_rank := max 1 (pyIntTrunc r.val) } := by
  unfold mkFlightPlan at h
  cases h1 : npArray2 waypoints with
  | error e => simp only [h1] at h; exact Except.noConfusion h
  | ok wp =>
    simp only [h1] at h
    cases h2 : validateWaypoints wp with
    | error e => simp only [h2] at h; exact Except.noConfusion h
    | ok u =>
      simp only [h2] at h
      cases h3 : validateDimensions wp altitudes speeds with
      | error e => simp only [h3] at h; exact Except.noConfusion h
      | ok v =>
        simp only [h3, Except.ok.injEq] at h
        exact h.symm

/-- The spec-side predicate coincides with the raw characterization. -/
theorem specValidFlightPlanInput_iff (waypoints : List (List ℚ)) (altitudes speeds : List ℚ) :
    specValidFlightPlanInput waypoints altitudes speeds ↔
      (waypoints ≠ [] ∧ (∀ row ∈ waypoints, row.length = 2) ∧
       (∀ row ∈ waypoints, -180 ≤ wpLon row ∧ wpLon row ≤ 180) ∧
       (∀ row ∈ waypoints, -90 ≤ wpLat row ∧ wpLat row ≤ 90) ∧
       altitudes.length = waypoints.length ∧ speeds.length = waypoints.length) := by
  unfold specValidFlightPlanInput
  constructor
  · rintro ⟨hne, hrow, ha, hs⟩
    refine ⟨hne, ?_, ?_, ?_, ha, hs⟩
    · intro row hr
      obtain ⟨lon, lat, hrw, -⟩ := hrow row hr
      simp [hrw]
    · intro row hr
      obtain ⟨lon, lat, hrw, h1, h2, -, -⟩ := hrow row hr
      rw [hrw, wpLon_pair]
      exact ⟨h1, h2⟩
    · intro row hr
      obtain ⟨lon, lat, hrw, -, -, h3, h4⟩ := hrow row hr
      rw [hrw, wpLat_pair]
      exact ⟨h3, h4⟩
  · rintro ⟨hne, h2, hlon, hlat, ha, hs⟩
    refine ⟨hne, ?_, ha, hs⟩
    intro row hr
    obtain ⟨a, b, hab⟩ := List.length_eq_two.mp (h2 row hr)
    subst hab
    exact ⟨a, b, rfl, (hlon _ hr).1, (hlon _ hr).2, (hlat _ hr).1, (hlat _ hr).2⟩

/-- C1: `FlightPlan` construction succeeds if and only if the waypoint
sequence is a non-empty n x 2 matrix of (longitude, latitude) pairs with
every longitude in `[-180, 180]`, every latitude in `[-90, 90]`, and the
altitude and speed sequences each of length n; on success the length query
returns n. -/
theorem flightPlan_construction_iff_valid (waypoints : List (List ℚ))
    (altitudes speeds : List ℚ) (cat : String) (d : ℚ) (r : PyNum) :
    ((∃ fp, mkFlightPlan waypoints altitudes speeds cat d r = .ok fp) ↔
      specValidFlightPlanInput waypoints altitudes speeds) ∧
    (∀ fp, mkFlightPlan waypoints altitudes speeds cat d r = .ok fp →
      fp.len = waypoints.length) := by
  constructor
  · rw [mkFlightPlan_ok_iff, specValidFlightPlanInput_iff]
  · intro fp hfp
    rw [mkFlightPlan_ok_fields hfp]
    rfl

/-- Witness for C1 at the concrete plan `[[10, 20]]`, `[300]`, `[450]`. -/
theorem flightPlan_construction_iff_valid_witness :
    FlightPlan.len ⟨[[10, 20]], [300], [450], "Heavy", 0, 1⟩ = 1 :=
  (flightPlan_construction_iff_valid [[10, 20]] [300] [450] "Heavy" 0 (.intv 1)).2
    ⟨[[10, 20]], [300], [450], "Heavy", 0, 1⟩ (by decide)

/-- The numpy conversion error message for a ragged nested list. -/
def raggedMsg : String := "setting an array element with a sequence (inhomogeneous shape)"

/-- Construction with an empty waypoint list reads `shape[1]` of a
one-dimensional array and raises `IndexError`. -/
theorem mkFlightPlan_nil (altitudes speeds : List ℚ) (cat : String) (d : ℚ) (r : PyNum) :
    mkFlightPlan [] altitudes speeds cat d r = .error .indexError := by
  simp [mkFlightPlan, npArray2, validateWaypoints]

/-- Construction with a ragged waypoint list fails inside `np.array`. -/
theorem mkFlightPlan_ragged {rr : List ℚ} {rs : List (List ℚ)}
    (h : ¬ ∀ row ∈ rr :: rs, row.length = rr.length)
    (altitudes speeds : List ℚ) (cat : String) (d : ℚ) (r : PyNum) :
    mkFlightPlan (rr :: rs) altitudes speeds cat d r = .error (.valueError raggedMsg) := by
  have harr : npArray2 (rr :: rs) = .error (.valueError raggedMsg) := by
    rw [npArray2, if_neg h]
    rfl
  simp [mkFlightPlan, harr]

/-- Construction with a rectangular waypoint matrix of column count other
than 2 fails with the column-count message. -/
theorem mkFlightPlan_badcol {rr : List ℚ} {rs : List (List ℚ)}
    (hrect : ∀ row ∈ rr :: rs, row.length = rr.length) (hcol : rr.length ≠ 2)
    (altitudes speeds : List ℚ) (cat : String) (d : ℚ) (r : PyNum) :
    mkFlightPlan (rr :: rs) altitudes speeds cat d r = .error (.valueError colMsg) := by
  have harr : npArray2 (rr :: rs) = .ok (.twoD (rr :: rs) rr.length) := by
    rw [npArray2, if_pos hrect]
  have hval : validateWaypoints (.twoD (rr :: rs) rr.length)
      = .error (.valueError colMsg) := by
    rw [validateWaypoints, if_pos hcol]
  simp [mkFlightPlan, harr, hval]

/-- Construction with an out-of-range longitude (and two columns) fails with
the longitude message. -/
theorem mkFlightPlan_badlon {rr : List ℚ} {rs : List (List ℚ)}
    (hrect : ∀ row ∈ rr :: rs, row.length = rr.length) (hcol : rr.length = 2)
    (hlon : ¬ ∀ row ∈ rr :: rs, -180 ≤ wpLon row ∧ wpLon row ≤ 180)
    (altitudes speeds : List ℚ) (cat : String) (d : ℚ) (r : PyNum) :
    mkFlightPlan (rr :: rs) altitudes speeds cat d r = .error (.valueError lonMsg) := by
  obtain ⟨a, b, rfl⟩ := List.length_eq_two.mp hcol
  have harr : npArray2 ([a, b] :: rs) = .ok (.twoD ([a, b] :: rs) 2) := by
    rw [npArray2, if_pos hrect]
    rfl
  have hval : validateWaypoints (.twoD ([a, b] :: rs) 2)
      = .error (.valueError lonMsg) := by
    rw [validateWaypoints, if_neg (by simp), if_pos hlon]
  simp [mkFlightPlan, harr, hval]

/-- Construction whose longitudes pass but some latitude is out of range
fails with the latitude message. -/
theorem mkFlightPlan_badlat {rr : List ℚ} {rs : List (List ℚ)}
    (hrect : ∀ row ∈ rr :: rs, row.length = rr.length) (hcol : rr.length = 2)
    (hlon : ∀ row ∈ rr :: rs, -180 ≤ wpLon row ∧ wpLon row ≤ 180)
    (hlat : ¬ ∀ row ∈ rr :: rs, -90 ≤ wpLat row ∧ wpLat row ≤ 90)
    (altitudes speeds : List ℚ) (cat : String) (d : ℚ) (r : PyNum) :
    mkFlightPlan (rr :: rs) altitudes speeds cat d r = .error (.valueError latMsg) := by
  obtain ⟨a, b, rfl⟩ := List.length_eq_two.mp hcol
  have harr : npArray2 ([a, b] :: rs) = .ok (.twoD ([a, b] :: rs) 2) := by
    rw [npArray2, if_pos hrect]
    rfl
  have hval : validateWaypoints (.twoD ([a, b] :: rs) 2)
      = .error (.valueError latMsg) := by
    rw [validateWaypoints, if_neg (by simp), if_neg (not_not_intro hlon), if_pos hlat]
  simp [mkFlightPlan, harr, hval]

/-- Construction whose waypoints pass but whose altitude count differs from
the waypoint count fails with the altitude message. -/
theorem mkFlightPlan_badalt {rr : List ℚ} {rs : List (List ℚ)}
    (hrect : ∀ row ∈ rr :: rs, row.length = rr.length) (hcol : rr.length = 2)
    (hlon : ∀ row ∈ rr :: rs, -180 ≤ wpLon row ∧ wpLon row ≤ 180)
    (hlat : ∀ row ∈ rr :: rs, -90 ≤ wpLat row ∧ wpLat row ≤ 90)
    {altitudes : List ℚ} (halt : altitudes.length ≠ (rr :: rs).length)
    (speeds : List ℚ) (cat : String) (d : ℚ) (r : PyNum) :
    mkFlightPlan (rr :: rs) altitudes speeds cat d r = .error (.valueError altMsg) := by
  obtain ⟨a, b, rfl⟩ := List.length_eq_two.mp hcol
  have harr : npArray2 ([a, b] :: rs) = .ok (.twoD ([a, b] :: rs) 2) := by
    rw [npArray2, if_pos hrect]
    rfl
  have hval : validateWaypoints (.twoD ([a, b] :: rs) 2) = .ok () := by
    rw [validateWaypoints, if_neg (by simp), if_neg (not_not_intro hlon),
      if_neg (not_not_intro hlat)]
  have hdim : validateDimensions (.twoD ([a, b] :: rs) 2) altitudes speeds
      = .error (.valueError altMsg) := by
    rw [validateDimensions]
    simp only [NpArray.len]
    rw [if_pos halt]
  simp [mkFlightPlan, harr, hval, hdim]

/-- Construction whose waypoints and altitude count pass but whose speed
count differs fails with the speed message. -/
theorem mkFlightPlan_badspd {rr : List ℚ} {rs : List (List ℚ)}
    (hrect : ∀ row ∈ rr :: rs, row.length = rr.length) (hcol : rr.length = 2)
    (hlon : ∀ row ∈ rr :: rs, -180 ≤ wpLon row ∧ wpLon row ≤ 180)
    (hlat : ∀ row ∈ rr :: rs, -90 ≤ wpLat row ∧ wpLat row ≤ 90)
    {altitudes : List ℚ} (halt : altitudes.length = (rr :: rs).length)
    {speeds : List ℚ} (hspd : speeds.length ≠ (rr :: rs).length)
    (cat : String) (d : ℚ) (r : PyNum) :
    mkFlightPlan (rr :: rs) altitudes speeds cat d r = .error (.valueError spdMsg) := by
  obtain ⟨a, b, rfl⟩ := List.length_eq_two.mp hcol
  have harr : npArray2 ([a, b] :: rs) = .ok (.twoD ([a, b] :: rs) 2) := by
    rw [npArray2, if_pos hrect]
    rfl
  have hval : validateWaypoints (.twoD ([a, b] :: rs) 2) = .ok () := by
    rw [validateWaypoints, if_neg (by simp), if_neg (not_not_intro hlon),
      if_neg (not_not_intro hlat)]
  have hdim : validateDimensions (.twoD ([a, b] :: rs) 2) altitudes speeds
      = .error (.valueError spdMsg) := by
    rw [validateDimensions]
    simp only [NpArray.len]
    rw [if_neg (not_not_intro halt), if_pos hspd]
  simp [mkFlightPlan, harr, hval, hdim]

/-- Success equation: on a valid input the constructor returns exactly the
record with clamped lenient fields. -/
theorem mkFlightPlan_eq_ok (waypoints : List (List ℚ)) (altitudes speeds : List ℚ)
    (cat : String) (d : ℚ) (r : PyNum)
    (h : waypoints ≠ [] ∧ (∀ row ∈ waypoints, row.length = 2) ∧
      (∀ row ∈ waypoints, -180 ≤ wpLon row ∧ wpLon row ≤ 180) ∧
      (∀ row ∈ waypoints, -90 ≤ wpLat row ∧ wpLat row ≤ 90) ∧
      altitudes.length = waypoints.length ∧ speeds.length = waypoints.length) :
    mkFlightPlan waypoints altitudes speeds cat d r
      = .ok ⟨waypoints, altitudes, speeds, cat, max 0 d,
          max 1 (pyIntTrunc r.val)⟩ := by
  obtain ⟨fp, hfp⟩ := (mkFlightPlan_ok_iff waypoints altitudes speeds cat d r).mpr h
  rw [hfp, mkFlightPlan_ok_fields hfp]

/-- C2 counterexample: the claim says every invalid construction fails with a
`ValidationError` identifying the violated check, but constructing with an
empty waypoint list (an invalid input: the minimum waypoint count is 1) fails
with an `IndexError`, which is not a `ValueError`; likewise a ragged waypoint
list fails with numpy's conversion `ValueError`, whose message names no
check. -/
theorem flightPlan_validation_error_counterexample :
    mkFlightPlan [] [] [] "A320" 0 (.intv 1) = .error .indexError ∧
    PyError.isValueError .indexError = false ∧
    mkFlightPlan [[0, 0], [1]] [0, 0] [0, 0] "A320" 0 (.intv 1)
      = .error (.valueError raggedMsg) ∧
    raggedMsg ∉ [colMsg, lonMsg, latMsg, altMsg, spdMsg] := by
  refine ⟨by decide, rfl, by decide, by decide⟩

/-- C2 (amended): an invalid construction with a non-empty waypoint matrix of
equal-length rows fails with the `ValidationError` identifying the violated
check, the checks applied in the fixed order (a) two columns, (b) longitude
then latitude range, (c) altitude then speed count; an empty waypoint list
instead fails with an `IndexError` before any check message and a ragged one
with numpy's conversion error; a failed construction returns no object; in
particular longitude 200 fails with the geometric-range error while longitude
exactly 180 or -180 does not fail. -/
theorem flightPlan_error_discipline :
    (∀ (altitudes speeds : List ℚ) (cat : String) (d : ℚ) (r : PyNum),
      mkFlightPlan [] altitudes speeds cat d r = .error .indexError) ∧
    (∀ (rr : List ℚ) (rs : List (List ℚ)) (altitudes speeds : List ℚ)
        (cat : String) (d : ℚ) (r : PyNum),
      (¬ ∀ row ∈ rr :: rs, row.length = rr.length) →
        mkFlightPlan (rr :: rs) altitudes speeds cat d r
          = .error (.valueError raggedMsg)) ∧
    (∀ (rr : List ℚ) (rs : List (List ℚ)) (altitudes speeds : List ℚ)
        (cat : String) (d : ℚ) (r : PyNum),
      (∀ row ∈ rr :: rs, row.length = rr.length) → rr.length ≠ 2 →
        mkFlightPlan (rr :: rs) altitudes speeds cat d r
          = .error (.valueError colMsg)) ∧
    (∀ (rr : List ℚ) (rs : List (List ℚ)) (altitudes speeds : List ℚ)
        (cat : String) (d : ℚ) (r : PyNum),
      (∀ row ∈ rr :: rs, row.length = rr.length) → rr.length = 2 →
      (¬ ∀ row ∈ rr :: rs, -180 ≤ wpLon row ∧ wpLon row ≤ 180) →
        mkFlightPlan (rr :: rs) altitudes speeds cat d r
          = .error (.valueError lonMsg)) ∧
    (∀ (rr : List ℚ) (rs : List (List ℚ)) (altitudes speeds : List ℚ)
        (cat : String) (d : ℚ) (r : PyNum),
      (∀ row ∈ rr :: rs, row.length = rr.length) → rr.length = 2 →
      (∀ row ∈ rr :: rs, -180 ≤ wpLon row ∧ wpLon row ≤ 180) →
      (¬ ∀ row ∈ rr :: rs, -90 ≤ wpLat row ∧ wpLat row ≤ 90) →
        mkFlightPlan (rr :: rs) altitudes speeds cat d r
          = .error (.valueError latMsg)) ∧
    (∀ (rr : List ℚ) (rs : List (List ℚ)) (altitudes speeds : List ℚ)
        (cat : String) (d : ℚ) (r : PyNum),
      (∀ row ∈ rr :: rs, row.length = rr.length) → rr.length = 2 →
      (∀ row ∈ rr :: rs, -180 ≤ wpLon row ∧ wpLon row ≤ 180) →
      (∀ row ∈ rr :: rs, -90 ≤ wpLat row ∧ wpLat row ≤ 90) →
      altitudes.length ≠ (rr :: rs).length →
        mkFlightPlan (rr :: rs) altitudes speeds cat d r
          = .error (.valueError altMsg)) ∧
    (∀ (rr : List ℚ) (rs : List (List ℚ)) (altitudes speeds : List ℚ)
        (cat : String) (d : ℚ) (r : PyNum),
      (∀ row ∈ rr :: rs, row.length = rr.length) → rr.length = 2 →
      (∀ row ∈ rr :: rs, -180 ≤ wpLon row ∧ wpLon row ≤ 180) →
      (∀ row ∈ rr :: rs, -90 ≤ wpLat row ∧ wpLat row ≤ 90) →
      altitudes.length = (rr :: rs).length → speeds.length ≠ (rr :: rs).length →
        mkFlightPlan (rr :: rs) altitudes speeds cat d r
          = .error (.valueError spdMsg)) ∧
    mkFlightPlan [[200, 0]] [300] [450] "A320" 0 (.intv 1)
      = .error (.valueError lonMsg) ∧
    mkFlightPlan [[180, 0]] [300] [450] "A320" 0 (.intv 1)
      = .ok ⟨[[180, 0]], [300], [450], "A320", 0, 1⟩ ∧
    mkFlightPlan [[-180, 0]] [300] [450] "A320" 0 (.intv 1)
      = .ok ⟨[[-180, 0]], [300], [450], "A320", 0, 1⟩ := by
  refine ⟨fun altitudes speeds cat d r => mkFlightPlan_nil altitudes speeds cat d r,
    fun rr rs altitudes speeds cat d r h => mkFlightPlan_ragged h altitudes speeds cat d r,
    fun rr rs altitudes speeds cat d r h1 h2 =>
      mkFlightPlan_badcol h1 h2 altitudes speeds cat d r,
    fun rr rs altitudes speeds cat d r h1 h2 h3 =>
      mkFlightPlan_badlon h1 h2 h3 altitudes speeds cat d r,
    fun rr rs altitudes speeds cat d r h1 h2 h3 h4 =>
      mkFlightPlan_badlat h1 h2 h3 h4 altitudes speeds cat d r,
    fun rr rs altitudes speeds cat d r h1 h2 h3 h4 h5 =>
      mkFlightPlan_badalt h1 h2 h3 h4 h5 speeds cat d r,
    fun rr rs altitudes speeds cat d r h1 h2 h3 h4 h5 h6 =>
      mkFlightPlan_badspd h1 h2 h3 h4 h5 h6 cat d r,
    by decide, by decide, by decide⟩

/-- Witness for C2 at concrete inputs: a 1 x 3 waypoint matrix fails the
column check, and a longitude of 200 together with a mismatched altitude
count still fails with the earlier (geometric) check. -/
theorem flightPlan_error_discipline_witness :
    mkFlightPlan [[1, 2, 3]] [300] [450] "A320" 0 (.intv 1)
      = .error (.valueError colMsg) ∧
    mkFlightPlan [[200, 0]] [300, 310] [450] "A320" 0 (.intv 1)
      = .error (.valueError lonMsg) :=
  ⟨flightPlan_error_discipline.2.2.1 [1, 2, 3] [] [300] [450] "A320" 0 (.intv 1)
      (by decide) (by decide),
    flightPlan_error_discipline.2.2.2.1 [200, 0] [] [300, 310] [450] "A320" 0 (.intv 1)
      (by decide) (by decide) (by decide)⟩

/-- Truncation of an integer value is the integer itself. -/
theorem pyIntTrunc_intCast (k : ℤ) : pyIntTrunc (k : ℚ) = k := by
  unfold pyIntTrunc
  split <;> simp

/-- C7: the two lenient fields are clamped rather than validated: success of
the construction does not depend on them, the stored delay allowance is the
input when non-negative and 0 when negative, and the stored preference rank
is the input when at least 1 and 1 when below 1. -/
theorem flightPlan_clamps_lenient_fields (waypoints : List (List ℚ))
    (altitudes speeds : List ℚ) (cat : String) (d : ℚ) (k : ℤ) :
    ((∃ fp, mkFlightPlan waypoints altitudes speeds cat d (.intv k) = .ok fp) ↔
      (∃ fp, mkFlightPlan waypoints altitudes speeds cat 0 (.intv 1) = .ok fp)) ∧
    (∀ fp, mkFlightPlan waypoints altitudes speeds cat d (.intv k) = .ok fp →
      fp.delay_allowance = (if 0 ≤ d then d else 0) ∧
      fp.preference_rank = (if 1 ≤ k then k else 1)) := by
  constructor
  · rw [mkFlightPlan_ok_iff, mkFlightPlan_ok_iff]
  · intro fp hfp
    rw [mkFlightPlan_ok_fields hfp]
    refine ⟨?_, ?_⟩
    · show max 0 d = _
      rw [max_def]
    · show max 1 (pyIntTrunc (PyNum.intv k).val) = _
      rw [show (PyNum.intv k).val = (k : ℚ) from rfl, pyIntTrunc_intCast, max_def]

/-- Witness for C7: `delay_allowance = -50` stores 0 and `preference_rank = 0`
stores 1 on an otherwise valid plan. -/
theorem flightPlan_clamps_lenient_fields_witness :
    FlightPlan.delay_allowance ⟨[[0, 0]], [1], [1], "A", 0, 1⟩ = 0 ∧
    FlightPlan.preference_rank ⟨[[0, 0]], [1], [1], "A", 0, 1⟩ = 1 := by
  have h := (flightPlan_clamps_lenient_fields [[0, 0]] [1] [1] "A" (-50) 0).2
    ⟨[[0, 0]], [1], [1], "A", 0, 1⟩ (by decide)
  exact ⟨h.1.trans (by norm_num), h.2.trans (by norm_num)⟩

/-- C10: for any numeric preference rank input the stored rank is
`max 1 (trunc r)` with truncation toward zero, while the stored delay
allowance is `max 0 d` with no integer conversion; an input rank of 2.9
stores 2 and one of 0.9 stores 1, and a delay allowance of 2.9 is stored as
2.9. -/
theorem flightPlan_rank_truncation (waypoints : List (List ℚ))
    (altitudes speeds : List ℚ) (cat : String) (d : ℚ) (r : PyNum) :
    (∀ fp, mkFlightPlan waypoints altitudes speeds cat d r = .ok fp →
      fp.preference_rank = max 1 (pyIntTrunc r.val) ∧
      fp.delay_allowance = max 0 d) ∧
    mkFlightPlan [[0, 0]] [1] [1] "A" (29/10 : ℚ) (.floatv (29/10))
      = .ok ⟨[[0, 0]], [1], [1], "A", 29/10, 2⟩ ∧
    mkFlightPlan [[0, 0]] [1] [1] "A" 0 (.floatv (9/10))
      = .ok ⟨[[0, 0]], [1], [1], "A", 0, 1⟩ := by
  refine ⟨?_, ?_, ?_⟩
  · intro fp hfp
    rw [mkFlightPlan_ok_fields hfp]
    exact ⟨rfl, rfl⟩
  · rw [mkFlightPlan_eq_ok [[0, 0]] [1] [1] "A" (29/10) (.floatv (29/10)) (by decide)]
    have h1 : max 0 (29/10 : ℚ) = 29/10 := by norm_num
    have h2 : max 1 (pyIntTrunc (PyNum.floatv (29/10)).val) = 2 := by
      show max 1 (pyIntTrunc (29/10 : ℚ)) = 2
      rw [pyIntTrunc, if_pos (by norm_num)]
      norm_num
    rw [h1, h2]
  · rw [mkFlightPlan_eq_ok [[0, 0]] [1] [1] "A" 0 (.floatv (9/10)) (by decide)]
    have h1 : max 0 (0 : ℚ) = 0 := by norm_num
    have h2 : max 1 (pyIntTrunc (PyNum.floatv (9/10)).val) = 1 := by
      show max 1 (pyIntTrunc (9/10 : ℚ)) = 1
      rw [pyIntTrunc, if_pos (by norm_num)]
      norm_num
    rw [h1, h2]

/-- Witness for C10: a preference rank input of 2.9 stores rank 2. -/
theorem flightPlan_rank_truncation_witness :
    FlightPlan.preference_rank ⟨[[0, 0]], [1], [1], "A", (29/10 : ℚ), 2⟩
        = max 1 (pyIntTrunc (PyNum.floatv (29/10)).val) ∧
    FlightPlan.delay_allowance ⟨[[0, 0]], [1], [1], "A", (29/10 : ℚ), 2⟩
        = max 0 (29/10 : ℚ) := by
  have t := flightPlan_rank_truncation [[0, 0]] [1] [1] "A" (29/10) (.floatv (29/10))
  exact t.1 ⟨[[0, 0]], [1], [1], "A", (29/10 : ℚ), 2⟩ t.2.1

/-- The valid wake turbulence categories (Flight.py line 35); the source
holds them in a Python set literal, modelled as a list in the source's
order. -/
def validWakeCategories : List String := ["Light", "Medium", "Heavy", "Super"]

/-- Error message of `Flight._validate_wake_category`; the Python f-string
renders the set of valid categories, modelled by listing them. -/
def wakeMsg : String :=
  "Wake turbulence category must be one of " ++ String.intercalate ", " validWakeCategories

/-- The `Flight` object (Flight.py lines 4-31). -/
structure Flight where
  callsign : String
  airline : String
  aircraft : String
  wake_turbulence_cat : String
  cost_index : PyNum
  filed_plans : List FlightPlan
deriving DecidableEq, Repr

/-- Model of `Flight.__init__` (Flight.py lines 5-31): validate the wake
category against the closed set (raising `ValueError` otherwise), store the
identity strings unchanged, coerce `cost_index` with `float(...)`, and
default a missing `filed_plans` to the empty list. -/
def mkFlight (callsign airline aircraft wake_turbulence_cat : String)
    (cost_index : PyNum) (filed_plans : Option (List FlightPlan)) :
    Except PyError Flight :=
  if wake_turbulence_cat ∈ validWakeCategories then
    .ok { callsign := callsign
          airline := airline
          aircraft := aircraft
          wake_turbulence_cat := wake_turbulence_cat
          cost_index := pyFloat cost_index
          filed_plans := filed_plans.getD [] }
  else
    .error (.valueError wakeMsg)

/-- Model of `Flight.add_flight_plan` (Flight.py lines 69-76): append the
plan at the end of the filed plans. -/
def Flight.add_flight_plan (f : Flight) (flight_plan : FlightPlan) : Flight :=
  { f with filed_plans := f.filed_plans ++ [flight_plan] }

/-- C5: `Flight` construction fails with the `ValidationError` whose message
lists the valid set if and only if the wake category is not one of Light,
Medium, Heavy, Super; with a valid category it succeeds, stores the category
unchanged, validates no other field, and coerces `cost_index` to float. -/
theorem flight_wake_category_validation (callsign airline aircraft wake : String)
    (cost : PyNum) (plans : Option (List FlightPlan)) :
    (mkFlight callsign airline aircraft wake cost plans = .error (.valueError wakeMsg) ↔
      wake ∉ (["Light", "Medium", "Heavy", "Super"] : List String)) ∧
    ((∃ f, mkFlight callsign airline aircraft wake cost plans = .ok f) ↔
      wake ∈ (["Light", "Medium", "Heavy", "Super"] : List String)) ∧
    (∀ f, mkFlight callsign airline aircraft wake cost plans = .ok f →
      f.wake_turbulence_cat = wake ∧ f.callsign = callsign ∧ f.airline = airline ∧
      f.aircraft = aircraft ∧ f.cost_index = .floatv cost.val ∧
      f.filed_plans = plans.getD []) := by
  have hvc : validWakeCategories = ["Light", "Medium", "Heavy", "Super"] := rfl
  refine ⟨?_, ?_, ?_⟩
  · by_cases h : wake ∈ validWakeCategories
    · refine iff_of_false ?_ ?_
      · rw [mkFlight, if_pos h]
        exact fun hh => Except.noConfusion hh
      · exact fun hn => hn (hvc ▸ h)
    · refine iff_of_true ?_ (hvc ▸ h)
      rw [mkFlight, if_neg h]
  · by_cases h : wake ∈ validWakeCategories
    · refine iff_of_true ⟨⟨callsign, airline, aircraft, wake, pyFloat cost,
        plans.getD []⟩, ?_⟩ (hvc ▸ h)
      rw [mkFlight, if_pos h]
    · refine iff_of_false ?_ (hvc ▸ h)
      rintro ⟨f, hf⟩
      rw [mkFlight, if_neg h] at hf
      exact Except.noConfusion hf
  · intro f hf
    by_cases h : wake ∈ validWakeCategories
    · rw [mkFlight, if_pos h] at hf
      rw [← Except.ok.inj hf]
      exact ⟨rfl, rfl, rfl, rfl, rfl, rfl⟩
    · rw [mkFlight, if_neg h] at hf
      exact Except.noConfusion hf

/-- Witness for C5: `wake_turbulence_cat = "Heavy"` is stored unchanged, and
`"XL"` fails. -/
theorem flight_wake_category_validation_witness :
    Flight.wake_turbulence_cat ⟨"UAL123", "United", "B738", "Heavy", .floatv 25, []⟩
        = "Heavy" ∧
    mkFlight "BAW9" "Speedbird" "A380" "XL" (.intv 0) none
        = .error (.valueError wakeMsg) :=
  ⟨((flight_wake_category_validation "UAL123" "United" "B738" "Heavy" (.intv 25) none).2.2
      ⟨"UAL123", "United", "B738", "Heavy", .floatv 25, []⟩ (by decide)).1,
    (flight_wake_category_validation "BAW9" "Speedbird" "A380" "XL" (.intv 0) none).1.mpr
      (by decide)⟩

/-- The `Sector` object (Sector.py lines 11-47): name, boundary polygon of
(latitude, longitude) pairs, 96-slot capacity array, optional centroid and
vertical bounds. -/
structure Sector where
  name : String
  polygon : List (ℚ × ℚ)
  capacity : List ℤ
  centroid : Option (ℚ × ℚ)
  lower_altitude : Option ℚ
  upper_altitude : Option ℚ
deriving DecidableEq, Repr

/-- Error message of the `Sector` capacity-length check (Sector.py line 46). -/
def capLenMsg : String :=
  "Capacity must be a 96-element array (15-minute intervals for 24 hours)"

/-- Error message of the `Sector` time-index range check (Sector.py lines 58, 72). -/
def timeIdxMsg : String := "Time index must be between 0 and 95"

/-- Model of `Sector.__init__` (Sector.py lines 22-47): assign the plain
fields unchanged; a missing capacity defaults to 96 zeros, a supplied one
must have exactly 96 entries. -/
def mkSector (name : String) (polygon : List (ℚ × ℚ)) (capacity : Option (List ℤ))
    (centroid : Option (ℚ × ℚ)) (lower_altitude upper_altitude : Option ℚ) :
    Except PyError Sector :=
  match capacity with
  | none =>
    .ok { name := name, polygon := polygon, capacity := List.replicate 96 0,
          centroid := centroid, lower_altitude := lower_altitude,
          upper_altitude := upper_altitude }
  | some c =>
    if c.length ≠ 96 then .error (.valueError capLenMsg)
    else
      .ok { name := name, polygon := polygon, capacity := c,
            centroid := centroid, lower_altitude := lower_altitude,
            upper_altitude := upper_altitude }

/-- Model of `Sector.set_capacity` (Sector.py lines 49-59): the index must
lie in `[0, 95]`, otherwise `ValueError`; the slot is assigned in place
(modelled by returning the updated sector). -/
def Sector.set_capacity (s : Sector) (time_index : ℤ) (value : ℤ) :
    Except PyError Sector :=
  if ¬ (0 ≤ time_index ∧ time_index < 96) then .error (.valueError timeIdxMsg)
  else .ok { s with capacity := s.capacity.set time_index.toNat value }

/-- Model of `Sector.get_capacity` (Sector.py lines 61-73): the index must
lie in `[0, 95]`, otherwise `ValueError`; returns the slot value and changes
nothing. -/
def Sector.get_capacity (s : Sector) (time_index : ℤ) : Except PyError ℤ :=
  if ¬ (0 ≤ time_index ∧ time_index < 96) then .error (.valueError timeIdxMsg)
  else .ok (s.capacity.getD time_index.toNat 0)

/-- Reading any index of a constant list yields the constant. -/
theorem getD_replicate_int (n k : ℕ) (d : ℤ) : (List.replicate n d).getD k d = d := by
  induction n generalizing k with
  | zero => simp [List.getD]
  | succ n ih =>
    rw [List.replicate_succ]
    cases k with
    | zero => rfl
    | succ k => exact ih k

/-- Reading the just-written index of a list. -/
theorem getD_set_self {α : Type} (l : List α) (k : ℕ) (v d : α) (h : k < l.length) :
    (l.set k v).getD k d = v := by
  induction l generalizing k with
  | nil => simp at h
  | cons x xs ih =>
    cases k with
    | zero => rfl
    | succ k => simpa using ih k (by simpa using h)

/-- Reading any other index of a list after a write. -/
theorem getD_set_ne {α : Type} (l : List α) (j k : ℕ) (v d : α) (h : j ≠ k) :
    (l.set k v).getD j d = l.getD j d := by
  induction l generalizing j k with
  | nil => rfl
  | cons x xs ih =>
    cases k with
    | zero =>
      cases j with
      | zero => exact absurd rfl h
      | succ j => rfl
    | succ k =>
      cases j with
      | zero => rfl
      | succ j => simpa using ih j k (fun hh => h (by rw [hh]))

/-- C3: the capacity array always has exactly 96 slots: construction with a
capacity of any other length fails with the `ValidationError`, construction
without a capacity yields 96 slots each readable as 0, and `set_capacity`
preserves the length (`get_capacity` returns a value without touching the
sector). -/
theorem sector_capacity_invariant (name : String) (polygon : List (ℚ × ℚ))
    (centroid : Option (ℚ × ℚ)) (lo hi : Option ℚ) :
    (∀ c : List ℤ, c.length ≠ 96 →
      mkSector name polygon (some c) centroid lo hi
        = .error (.valueError capLenMsg)) ∧
    (∀ c : List ℤ, c.length = 96 →
      ∀ s, mkSector name polygon (some c) centroid lo hi = .ok s →
        s.capacity.length = 96) ∧
    (∀ s, mkSector name polygon none centroid lo hi = .ok s →
      s.capacity.length = 96 ∧
      ∀ i : ℤ, 0 ≤ i → i ≤ 95 → s.get_capacity i = .ok 0) ∧
    (∀ (s s' : Sector) (i v : ℤ), s.set_capacity i v = .ok s' →
      s'.capacity.length = s.capacity.length) := by
  refine ⟨?_, ?_, ?_, ?_⟩
  · intro c hc
    simp only [mkSector]
    rw [if_pos hc]
  · intro c hc s hs
    simp only [mkSector] at hs
    rw [if_neg (not_not_intro hc)] at hs
    rw [← Except.ok.inj hs]
    exact hc
  · intro s hs
    simp only [mkSector] at hs
    obtain rfl := Except.ok.inj hs
    refine ⟨List.length_replicate 96 0, ?_⟩
    intro i h0 h95
    rw [Sector.get_capacity, if_neg (not_not_intro ⟨h0, by omega⟩)]
    rw [getD_replicate_int]
  · intro s s' i v hs'
    rw [Sector.set_capacity] at hs'
    by_cases h : 0 ≤ i ∧ i < 96
    · rw [if_neg (not_not_intro h)] at hs'
      rw [← Except.ok.inj hs']
      exact List.length_set s.capacity i.toNat v
    · rw [if_pos h] at hs'
      exact absurd hs' (fun hh => Except.noConfusion hh)

/-- Witness for C3: a 95-element capacity fails, a default sector has 96
slots with slot 7 readable as 0, and a set preserves the length. -/
theorem sector_capacity_invariant_witness :
    mkSector "S" [] (some (List.replicate 95 0)) none none none
        = .error (.valueError capLenMsg) ∧
    List.length (Sector.capacity ⟨"S", [], List.replicate 96 0, none, none, none⟩) = 96 ∧
    Sector.get_capacity ⟨"S", [], List.replicate 96 0, none, none, none⟩ 7 = .ok 0 := by
  have t := sector_capacity_invariant "S" [] none none none
  have h2 := t.2.2.1 ⟨"S", [], List.replicate 96 0, none, none, none⟩ (by rfl)
  exact ⟨t.1 (List.replicate 95 0) (by simp), h2.1, h2.2 7 (by omega) (by omega)⟩

/-- C4: `set_capacity` and `get_capacity` fail exactly on indices outside
`[0, 95]`; an in-range set stores the value at that slot and changes no other
slot and no other field; an in-range get returns the stored slot value and
has no effect. -/
theorem sector_set_get_frame (s : Sector) (i v : ℤ) (h96 : s.capacity.length = 96) :
    ((∃ s', s.set_capacity i v = .ok s') ↔ 0 ≤ i ∧ i ≤ 95) ∧
    ((∃ x, s.get_capacity i = .ok x) ↔ 0 ≤ i ∧ i ≤ 95) ∧
    (¬ (0 ≤ i ∧ i ≤ 95) →
      s.set_capacity i v = .error (.valueError timeIdxMsg) ∧
      s.get_capacity i = .error (.valueError timeIdxMsg)) ∧
    (∀ s', s.set_capacity i v = .ok s' →
      s'.get_capacity i = .ok v ∧ s'.name = s.name ∧ s'.polygon = s.polygon ∧
      s'.centroid = s.centroid ∧ s'.lower_altitude = s.lower_altitude ∧
      s'.upper_altitude = s.upper_altitude ∧
      s'.capacity.length = s.capacity.length ∧
      ∀ j : ℕ, j ≠ i.toNat → s'.capacity.getD j 0 = s.capacity.getD j 0) ∧
    (0 ≤ i → i ≤ 95 → s.get_capacity i = .ok (s.capacity.getD i.toNat 0)) := by
  by_cases h : 0 ≤ i ∧ i < 96
  · have hset : s.set_capacity i v
        = .ok ⟨s.name, s.polygon, s.capacity.set i.toNat v, s.centroid,
            s.lower_altitude, s.upper_altitude⟩ := by
      rw [Sector.set_capacity, if_neg (not_not_intro h)]
    have hget : s.get_capacity i = .ok (s.capacity.getD i.toNat 0) := by
      rw [Sector.get_capacity, if_neg (not_not_intro h)]
    refine ⟨iff_of_true ⟨_, hset⟩ (by omega), iff_of_true ⟨_, hget⟩ (by omega),
      fun hn => absurd (by omega : 0 ≤ i ∧ i ≤ 95) hn, ?_, fun _ _ => hget⟩
    intro s' hs'
    rw [hset] at hs'
    obtain rfl := Except.ok.inj hs'
    have hlt : i.toNat < s.capacity.length := by omega
    refine ⟨?_, rfl, rfl, rfl, rfl, rfl, List.length_set s.capacity i.toNat v, ?_⟩
    · rw [Sector.get_capacity, if_neg (not_not_intro h)]
      simp only []
      rw [getD_set_self s.capacity i.toNat v 0 hlt]
    · intro j hj
      exact getD_set_ne s.capacity j i.toNat v 0 hj
  · have hset : s.set_capacity i v = .error (.valueError timeIdxMsg) := by
      rw [Sector.set_capacity, if_pos h]
    have hget : s.get_capacity i = .error (.valueError timeIdxMsg) := by
      rw [Sector.get_capacity, if_pos h]
    refine ⟨iff_of_false ?_ (by omega), iff_of_false ?_ (by omega),
      fun _ => ⟨hset, hget⟩, ?_, ?_⟩
    · rintro ⟨s', hs'⟩
      rw [hset] at hs'
      exact Except.noConfusion hs'
    · rintro ⟨x, hx⟩
      rw [hget] at hx
      exact Except.noConfusion hx
    · intro s' hs'
      rw [hset] at hs'
      exact absurd hs' (fun hh => Except.noConfusion hh)
    · intro h0 h95
      exact absurd ⟨h0, by omega⟩ h

/-- Witness for C4: setting slot 4 to 15 makes slot 4 read 15 while slot 0
still reads 0, and reading slot 96 fails with the index-range error. -/
theorem sector_set_get_frame_witness :
    Sector.get_capacity ⟨"S", [], (List.replicate 96 0).set 4 15, none, none, none⟩ 4
        = .ok 15 ∧
    Sector.get_capacity ⟨"S", [], List.replicate 96 0, none, none, none⟩ 96
        = .error (.valueError timeIdxMsg) := by
  have t1 := (sector_set_get_frame ⟨"S", [], List.replicate 96 0, none, none, none⟩
    4 15 (by simp)).2.2.2.1
    ⟨"S", [], (List.replicate 96 0).set 4 15, none, none, none⟩ (by rfl)
  have t2 := (sector_set_get_frame ⟨"S", [], List.replicate 96 0, none, none, none⟩
    96 0 (by simp)).2.2.1 (by omega)
  exact ⟨t1.1, t2.2⟩

/-- The `Scenario` object (Scenario.py lines 13-47). -/
structure Scenario where
  name : String
  flights : List Flight
  sectors : List Sector
  datetime : Option String
  author : Option String
deriving DecidableEq, Repr

/-- Model of `Scenario.__init__` (Scenario.py lines 25-47): store the name
and metadata unchanged; missing flight and sector lists default to empty. -/
def mkScenario (name : String) (flights : Option (List Flight))
    (sectors : Option (List Sector)) (datetime_str : Option String)
    (author : Option String) : Scenario :=
  { name := name, flights := flights.getD [], sectors := sectors.getD [],
    datetime := datetime_str, author := author }

/-- Model of `Scenario.add_flight` (Scenario.py lines 49-56): append to the
owned flight list; no validation, no return value. -/
def Scenario.add_flight (s : Scenario) (flight : Flight) : Scenario :=
  { s with flights := s.flights ++ [flight] }

/-- Model of `Scenario.add_sector` (Scenario.py lines 58-65): append to the
owned sector list; no validation, no return value. -/
def Scenario.add_sector (s : Scenario) (sector : Sector) : Scenario :=
  { s with sectors := s.sectors ++ [sector] }

/-- Model of `Scenario.get_flights` (Scenario.py lines 67-74): the flight
list, value-wise (the copy semantics is treated in the heap model below). -/
def Scenario.get_flights (s : Scenario) : List Flight := s.flights

/-- Model of `Scenario.get_sectors` (Scenario.py lines 76-83). -/
def Scenario.get_sectors (s : Scenario) : List Sector := s.sectors

/-- One addition call on a scenario: `add_flight` or `add_sector`. -/
inductive ScenOp where
  | addFlight (f : Flight)
  | addSector (s : Sector)

/-- Apply one addition call. -/
def applyScenOp (s : Scenario) : ScenOp → Scenario
  | .addFlight f => s.add_flight f
  | .addSector sec => s.add_sector sec

/-- Apply a sequence of addition calls in order. -/
def applyScenOps (s : Scenario) (ops : List ScenOp) : Scenario :=
  ops.foldl applyScenOp s

/-- The flights among a sequence of addition calls, in call order. -/
def opsFlights (ops : List ScenOp) : List Flight :=
  ops.filterMap fun op => match op with
    | .addFlight f => some f
    | .addSector _ => none

/-- The sectors among a sequence of addition calls, in call order. -/
def opsSectors (ops : List ScenOp) : List Sector :=
  ops.filterMap fun op => match op with
    | .addFlight _ => none
    | .addSector sec => some sec

/-- C8: `add_flight` and `add_sector` always succeed (any entity, duplicates
included) and append at the end; after any sequence of addition calls the
getters return exactly the previous contents followed by the added entities
in insertion order, nothing is ever removed, and the metadata fields are
untouched. -/
theorem scenario_add_get_append (s : Scenario) (ops : List ScenOp) :
    (applyScenOps s ops).get_flights = s.get_flights ++ opsFlights ops ∧
    (applyScenOps s ops).get_sectors = s.get_sectors ++ opsSectors ops ∧
    (applyScenOps s ops).name = s.name ∧
    (applyScenOps s ops).datetime = s.datetime ∧
    (applyScenOps s ops).author = s.author := by
  induction ops generalizing s with
  | nil =>
    exact ⟨(List.append_nil _).symm, (List.append_nil _).symm, rfl, rfl, rfl⟩
  | cons op ops ih =>
    cases op with
    | addFlight f =>
      have h := ih (s.add_flight f)
      refine ⟨?_, ?_, ?_, ?_, ?_⟩
      · rw [show applyScenOps s (.addFlight f :: ops)
              = applyScenOps (s.add_flight f) ops from rfl, h.1]
        show ((s.flights ++ [f]) ++ opsFlights ops) = s.flights ++ (f :: opsFlights ops)
        simp
      · rw [show applyScenOps s (.addFlight f :: ops)
              = applyScenOps (s.add_flight f) ops from rfl, h.2.1]
        rfl
      · exact h.2.2.1
      · exact h.2.2.2.1
      · exact h.2.2.2.2
    | addSector sec =>
      have h := ih (s.add_sector sec)
      refine ⟨?_, ?_, ?_, ?_, ?_⟩
      · rw [show applyScenOps s (.addSector sec :: ops)
              = applyScenOps (s.add_sector sec) ops from rfl, h.1]
        rfl
      · rw [show applyScenOps s (.addSector sec :: ops)
              = applyScenOps (s.add_sector sec) ops from rfl, h.2.1]
        show ((s.sectors ++ [sec]) ++ opsSectors ops) = s.sectors ++ (sec :: opsSectors ops)
        simp
      · exact h.2.2.1
      · exact h.2.2.2.1
      · exact h.2.2.2.2

/-- One parsed flight-plan record of a scenario file: required keys
`waypoints`, `altitudes`, `speeds`, `aircraft_category`, optional
`delay_allowance` and `preference_rank` (Scenario.py lines 162-170). -/
structure PlanData where
  waypoints : List (List ℚ)
  altitudes : List ℚ
  speeds : List ℚ
  aircraft_category : String
  delay_allowance : Option ℚ
  preference_rank : Option PyNum
deriving DecidableEq, Repr

/-- One parsed flight record (Scenario.py lines 151-158). -/
structure FlightData where
  callsign : String
  airline : String
  aircraft : String
  wake_turbulence_cat : String
  cost_index : PyNum
  filed_plans : Option (List PlanData)
deriving DecidableEq, Repr

/-- The parsed scenario record (Scenario.py lines 143-150). -/
structure ScenarioData where
  name : Option String
  datetime_str : Option String
  author : Option String
  flights : Option (List FlightData)
deriving DecidableEq, Repr

/-- Build one `FlightPlan` from a plan record, a missing `delay_allowance`
defaulting to 0 and a missing `preference_rank` to 1 (Scenario.py lines
163-170). -/
def buildPlan (pd : PlanData) : Except PyError FlightPlan :=
  mkFlightPlan pd.waypoints pd.altitudes pd.speeds pd.aircraft_category
    (pd.delay_allowance.getD 0) (pd.preference_rank.getD (.intv 1))

/-- Append the plans built from the records to the flight, in record order
(the loop of Scenario.py lines 161-171). -/
def buildPlans (f : Flight) : List PlanData → Except PyError Flight
  | [] => .ok f
  | pd :: rest =>
    match buildPlan pd with
    | .error e => .error e
    | .ok plan => buildPlans (f.add_flight_plan plan) rest

/-- Build one `Flight` (without plans yet) from a flight record
(Scenario.py lines 152-158). -/
def buildFlight (fd : FlightData) : Except PyError Flight :=
  mkFlight fd.callsign fd.airline fd.aircraft fd.wake_turbulence_cat fd.cost_index none

/-- Build one flight with its plans: the `Flight` is built first, then each
plan record of `filed_plans` (when present) is built and appended in record
order (Scenario.py lines 152-171). -/
def buildFullFlight (fd : FlightData) : Except PyError Flight :=
  match buildFlight fd with
  | .error e => .error e
  | .ok flight =>
    match fd.filed_plans with
    | none => .ok flight
    | some pds => buildPlans flight pds

/-- Process the flight records in order, adding each completed flight to the
scenario (the loop of Scenario.py lines 150-173). -/
def buildFlights (s : Scenario) : List FlightData → Except PyError Scenario
  | [] => .ok s
  | fd :: rest =>
    match buildFullFlight fd with
    | .error e => .error e
    | .ok flight => buildFlights (s.add_flight flight) rest

/-- Model of the assembly stage of `load_scenario_from_file` (Scenario.py
lines 142-178), starting from the already-parsed record structure (opening
and YAML-parsing the file are I/O outside the model): create the scenario
with `name` defaulting to "Unnamed Scenario", then process the flight
records in order. -/
def load_scenario_from_data (d : ScenarioData) : Except PyError Scenario :=
  match d.flights with
  | none => .ok (mkScenario (d.name.getD "Unnamed Scenario") none none d.datetime_str d.author)
  | some fds =>
    buildFlights (mkScenario (d.name.getD "Unnamed Scenario") none none d.datetime_str d.author) fds

/-- Plan processing succeeds exactly when every record builds, and appends
the built plans in record order. -/
theorem buildPlans_ok_iff (pds : List PlanData) (f f' : Flight) :
    buildPlans f pds = .ok f' ↔
      ∃ ps, List.Forall₂ (fun pd p => buildPlan pd = .ok p) pds ps ∧
        f' = { f with filed_plans := f.filed_plans ++ ps } := by
  induction pds generalizing f with
  | nil =>
    constructor
    · intro h
      refine ⟨[], List.Forall₂.nil, ?_⟩
      rw [← Except.ok.inj h]
      cases f
      simp
    · rintro ⟨ps, hps, rfl⟩
      cases hps
      cases f
      simp [buildPlans]
  | cons pd rest ih =>
    constructor
    · intro h
      simp only [buildPlans] at h
      cases hb : buildPlan pd with
      | error e =>
        rw [hb] at h
        exact Except.noConfusion h
      | ok p =>
        rw [hb] at h
        obtain ⟨ps, hps, rfl⟩ := (ih (f.add_flight_plan p)).mp h
        refine ⟨p :: ps, List.Forall₂.cons hb hps, ?_⟩
        cases f
        simp [Flight.add_flight_plan]
    · rintro ⟨ps, hps, rfl⟩
      match ps, hps with
      | p :: ps', List.Forall₂.cons hb hps' =>
        simp only [buildPlans, hb]
        refine (ih (f.add_flight_plan p)).mpr ⟨ps', hps', ?_⟩
        cases f
        simp [Flight.add_flight_plan]

/-- A failing plan loop fails at one of its records, with that record's
error. -/
theorem buildPlans_error (pds : List PlanData) (f : Flight) (e : PyError)
    (h : buildPlans f pds = .error e) : ∃ pd ∈ pds, buildPlan pd = .error e := by
  induction pds generalizing f with
  | nil => exact Except.noConfusion h
  | cons pd rest ih =>
    simp only [buildPlans] at h
    cases hb : buildPlan pd with
    | error e' =>
      rw [hb] at h
      obtain rfl := (Except.error.inj h).symm
      exact ⟨pd, List.mem_cons_self pd rest, hb⟩
    | ok p =>
      rw [hb] at h
      obtain ⟨pd', hmem, hpd'⟩ := ih (f.add_flight_plan p) h
      exact ⟨pd', List.mem_cons_of_mem pd hmem, hpd'⟩

/-- Fields of a successfully constructed `Flight`. -/
theorem mkFlight_ok_fields {callsign airline aircraft wake : String} {cost : PyNum}
    {plans : Option (List FlightPlan)} {f : Flight}
    (h : mkFlight callsign airline aircraft wake cost plans = .ok f) :
    f = ⟨callsign, airline, aircraft, wake, pyFloat cost, plans.getD []⟩ := by
  rw [mkFlight] at h
  by_cases hm : wake ∈ validWakeCategories
  · rw [if_pos hm] at h
    exact (Except.ok.inj h).symm
  · rw [if_neg hm] at h
    exact absurd h (fun hh => Except.noConfusion hh)

/-- A fully built flight carries the record's identity fields, the
float-coerced cost index, and exactly the plans built from its plan records
in record order. -/
theorem buildFullFlight_ok (fd : FlightData) (fl : Flight)
    (h : buildFullFlight fd = .ok fl) :
    fl.callsign = fd.callsign ∧ fl.airline = fd.airline ∧
    fl.aircraft = fd.aircraft ∧ fl.wake_turbulence_cat = fd.wake_turbulence_cat ∧
    fl.cost_index = .floatv fd.cost_index.val ∧
    List.Forall₂ (fun pd p => buildPlan pd = .ok p) (fd.filed_plans.getD []) fl.filed_plans := by
  simp only [buildFullFlight] at h
  cases hb : buildFlight fd with
  | error e =>
    rw [hb] at h
    exact Except.noConfusion h
  | ok flight =>
    rw [hb] at h
    have hfields := mkFlight_ok_fields hb
    cases hp : fd.filed_plans with
    | none =>
      rw [hp] at h
      obtain rfl := Except.ok.inj h
      rw [hfields]
      exact ⟨rfl, rfl, rfl, rfl, rfl, List.Forall₂.nil⟩
    | some pds =>
      rw [hp] at h
      obtain ⟨ps, hps, rfl⟩ := (buildPlans_ok_iff pds flight _).mp h
      rw [hfields]
      exact ⟨rfl, rfl, rfl, rfl, rfl, hps⟩

/-- A failing flight loop fails at one of its records, with that record's
error. -/
theorem buildFlights_error (fds : List FlightData) (s : Scenario) (e : PyError)
    (h : buildFlights s fds = .error e) : ∃ fd ∈ fds, buildFullFlight fd = .error e := by
  induction fds generalizing s with
  | nil => exact Except.noConfusion h
  | cons fd rest ih =>
    simp only [buildFlights] at h
    cases hb : buildFullFlight fd with
    | error e' =>
      rw [hb] at h
      obtain rfl := (Except.error.inj h).symm
      exact ⟨fd, List.mem_cons_self fd rest, hb⟩
    | ok flight =>
      rw [hb] at h
      obtain ⟨fd', hmem, hfd'⟩ := ih (s.add_flight flight) h
      exact ⟨fd', List.mem_cons_of_mem fd hmem, hfd'⟩

/-- The flight loop appends exactly the fully built flights, in record
order, touching nothing else of the scenario. -/
theorem buildFlights_ok_iff (fds : List FlightData) (s s' : Scenario) :
    buildFlights s fds = .ok s' ↔
      ∃ fls, List.Forall₂ (fun fd fl => buildFullFlight fd = .ok fl) fds fls ∧
        s' = { s with flights := s.flights ++ fls } := by
  induction fds generalizing s with
  | nil =>
    constructor
    · intro h
      refine ⟨[], List.Forall₂.nil, ?_⟩
      rw [← Except.ok.inj h]
      cases s
      simp
    · rintro ⟨fls, hfls, rfl⟩
      cases hfls
      cases s
      simp [buildFlights]
  | cons fd rest ih =>
    constructor
    · intro h
      simp only [buildFlights] at h
      cases hb : buildFullFlight fd with
      | error e =>
        rw [hb] at h
        exact Except.noConfusion h
      | ok flight =>
        rw [hb] at h
        obtain ⟨fls, hfls, rfl⟩ := (ih (s.add_flight flight)).mp h
        refine ⟨flight :: fls, List.Forall₂.cons hb hfls, ?_⟩
        cases s
        simp [Scenario.add_flight]
    · rintro ⟨fls, hfls, rfl⟩
      match fls, hfls with
      | flight :: fls', List.Forall₂.cons hb hfls' =>
        simp only [buildFlights, hb]
        refine (ih (s.add_flight flight)).mpr ⟨fls', hfls', ?_⟩
        cases s
        simp [Scenario.add_flight]

/-- C6: assembly of a parsed record yields a scenario named by the record's
`name` field (default "Unnamed Scenario"); each flight record is built first
as a `Flight`, then its plan records are built as `FlightPlan`s with missing
`delay_allowance` defaulting to 0 and missing `preference_rank` to 1 and
appended in record order; any construction error propagates unmodified and no
scenario is returned in that case. -/
theorem scenario_assembly (d : ScenarioData) :
    (∀ s, load_scenario_from_data d = .ok s →
      s.name = d.name.getD "Unnamed Scenario" ∧ s.datetime = d.datetime_str ∧
      s.author = d.author ∧ s.sectors = [] ∧
      List.Forall₂ (fun fd fl => buildFullFlight fd = .ok fl)
        (d.flights.getD []) s.flights) ∧
    (∀ fd fl, buildFullFlight fd = .ok fl →
      fl.callsign = fd.callsign ∧ fl.airline = fd.airline ∧
      fl.aircraft = fd.aircraft ∧ fl.wake_turbulence_cat = fd.wake_turbulence_cat ∧
      fl.cost_index = .floatv fd.cost_index.val ∧
      List.Forall₂ (fun pd p => buildPlan pd = .ok p)
        (fd.filed_plans.getD []) fl.filed_plans) ∧
    (∀ e, load_scenario_from_data d = .error e →
      ∃ fd ∈ d.flights.getD [], buildFullFlight fd = .error e) ∧
    (∀ fd rest e, d.flights = some (fd :: rest) → buildFullFlight fd = .error e →
      load_scenario_from_data d = .error e) ∧
    (∀ fd e, buildFlight fd = .error e → buildFullFlight fd = .error e) ∧
    (∀ pd, pd.delay_allowance = none → pd.preference_rank = none →
      buildPlan pd = mkFlightPlan pd.waypoints pd.altitudes pd.speeds
        pd.aircraft_category 0 (.intv 1)) := by
  refine ⟨?_, fun fd fl h => buildFullFlight_ok fd fl h, ?_, ?_, ?_, ?_⟩
  · intro s hs
    cases hfl : d.flights with
    | none =>
      rw [load_scenario_from_data, hfl] at hs
      obtain rfl := Except.ok.inj hs
      exact ⟨rfl, rfl, rfl, rfl, List.Forall₂.nil⟩
    | some fds =>
      rw [load_scenario_from_data, hfl] at hs
      obtain ⟨fls, hfls, rfl⟩ := (buildFlights_ok_iff fds _ s).mp hs
      exact ⟨rfl, rfl, rfl, rfl, hfls⟩
  · intro e he
    cases hfl : d.flights with
    | none =>
      rw [load_scenario_from_data, hfl] at he
      exact Except.noConfusion he
    | some fds =>
      rw [load_scenario_from_data, hfl] at he
      exact buildFlights_error fds _ e he
  · intro fd rest e hfl hb
    rw [load_scenario_from_data, hfl]
    simp only [buildFlights, hb]
  · intro fd e hb
    rw [buildFullFlight, hb]
  · intro pd hd hr
    rw [buildPlan, hd, hr]
    rfl

/-- Sample parsed plan record with both optional fields missing. -/
def demoPlan1 : PlanData := ⟨[[0, 0]], [300], [450], "Medium", none, none⟩

/-- Sample parsed plan record with both optional fields present. -/
def demoPlan2 : PlanData := ⟨[[1, 1]], [310], [460], "Medium", some 60, some (.intv 2)⟩

/-- Sample parsed flight record with two filed plans. -/
def demoFlightData : FlightData :=
  ⟨"UAL123", "United", "B738", "Medium", .intv 25, some [demoPlan1, demoPlan2]⟩

/-- Sample parsed scenario record with a name and one flight. -/
def demoScenarioData : ScenarioData := ⟨some "Demo", none, none, some [demoFlightData]⟩

/-- The flight built from `demoFlightData`. -/
def demoBuiltFlight : Flight :=
  ⟨"UAL123", "United", "B738", "Medium", .floatv 25,
    [⟨[[0, 0]], [300], [450], "Medium", 0, 1⟩,
      ⟨[[1, 1]], [310], [460], "Medium", 60, 2⟩]⟩

/-- Witness for C6: the sample record assembles to a scenario named by the
record's `name` field, whose single flight carries its two plans in record
order. -/
theorem scenario_assembly_witness :
    Scenario.name ⟨"Demo", [demoBuiltFlight], [], none, none⟩
        = Option.getD (some "Demo") "Unnamed Scenario" ∧
    List.length (Flight.filed_plans demoBuiltFlight) = 2 := by
  have t := scenario_assembly demoScenarioData
  have h1 := t.1 ⟨"Demo", [demoBuiltFlight], [], none, none⟩ (by decide)
  have h2 := t.2.1 demoFlightData demoBuiltFlight (by decide)
  exact ⟨h1.1, (List.Forall₂.length_eq h2.2.2.2.2.2).symm.trans rfl⟩

/-- A heap of Python list objects holding elements of type `α`: each cell is
one mutable list object; an address is an index into the cell store. This
models the reference/aliasing semantics that the defensive-copy claims are
about (values alone cannot express aliasing). -/
structure PyHeap (α : Type) where
  cells : List (List α)

/-- Allocate a fresh list object with the given contents, returning the new
heap and the fresh address. -/
def PyHeap.alloc {α : Type} (h : PyHeap α) (xs : List α) : PyHeap α × ℕ :=
  (⟨h.cells ++ [xs]⟩, h.cells.length)

/-- The contents of the list object at an address. -/
def PyHeap.read {α : Type} (h : PyHeap α) (r : ℕ) : List α :=
  h.cells.getD r []

/-- Replace the contents of the list object at an address; every in-place
mutation of a Python list or array (append, remove, index or slice
assignment) is an instance of this. -/
def PyHeap.write {α : Type} (h : PyHeap α) (r : ℕ) (xs : List α) : PyHeap α :=
  ⟨h.cells.set r xs⟩

/-- The shape shared by all the copying accessors: `return owned.copy()`
allocates a fresh list object with the owned cell's contents and returns its
address. -/
def copyAccessor {α : Type} (h : PyHeap α) (owned : ℕ) : PyHeap α × ℕ :=
  h.alloc (h.read owned)

/-- Model of the `FlightPlan.waypoints` property (FlightPlan.py lines 59-62,
`self._waypoints.copy()`); `owned` is the address of the object's waypoint
array, whose elements are the rows. -/
def FlightPlan.waypoints_ref (h : PyHeap (List ℚ)) (owned : ℕ) : PyHeap (List ℚ) × ℕ :=
  copyAccessor h owned

/-- Model of the `FlightPlan.altitudes` property (FlightPlan.py lines 64-67,
`self._altitudes.copy()`). -/
def FlightPlan.altitudes_ref (h : PyHeap ℚ) (owned : ℕ) : PyHeap ℚ × ℕ :=
  copyAccessor h owned

/-- Model of the `FlightPlan.speeds` property (FlightPlan.py lines 69-72,
`self._speeds.copy()`). -/
def FlightPlan.speeds_ref (h : PyHeap ℚ) (owned : ℕ) : PyHeap ℚ × ℕ :=
  copyAccessor h owned

/-- Model of the `Flight.filed_plans` property (Flight.py lines 64-67,
`self._filed_plans.copy()`); the copy is shallow, its elements are the same
plan objects. -/
def Flight.filed_plans_ref (h : PyHeap FlightPlan) (owned : ℕ) : PyHeap FlightPlan × ℕ :=
  copyAccessor h owned

/-- Model of `Scenario.get_flights` (Scenario.py lines 67-74,
`self.flights.copy()`). -/
def Scenario.get_flights_ref (h : PyHeap Flight) (owned : ℕ) : PyHeap Flight × ℕ :=
  copyAccessor h owned

/-- Model of `Scenario.get_sectors` (Scenario.py lines 76-83,
`self.sectors.copy()`). -/
def Scenario.get_sectors_ref (h : PyHeap Sector) (owned : ℕ) : PyHeap Sector × ℕ :=
  copyAccessor h owned

/-- Reading just past a one-element extension returns the new element. -/
theorem getD_append_self {α : Type} (l : List α) (x d : α) :
    (l ++ [x]).getD l.length d = x := by
  induction l with
  | nil => rfl
  | cons a t ih => exact ih

/-- Reading inside the prefix of an extension is unchanged. -/
theorem getD_append_lt {α : Type} (l₁ l₂ : List α) (n : ℕ) (d : α)
    (hn : n < l₁.length) : (l₁ ++ l₂).getD n d = l₁.getD n d := by
  induction l₁ generalizing n with
  | nil => exact absurd hn (Nat.not_lt_zero n)
  | cons a t ih =>
    cases n with
    | zero => rfl
    | succ n => exact ih n (Nat.lt_of_succ_lt_succ hn)

/-- A copying accessor returns a fresh object with the owned contents, does
not disturb the owned cell, and any mutation of the returned object leaves
the owned cell unchanged. -/
theorem copyAccessor_frame {α : Type} (h : PyHeap α) (owned : ℕ)
    (hv : owned < h.cells.length) (ys : List α) :
    (copyAccessor h owned).1.read (copyAccessor h owned).2 = h.read owned ∧
    (copyAccessor h owned).1.read owned = h.read owned ∧
    ((copyAccessor h owned).1.write (copyAccessor h owned).2 ys).read owned
      = h.read owned := by
  refine ⟨?_, ?_, ?_⟩
  · show (h.cells ++ [h.read owned]).getD h.cells.length [] = h.read owned
    exact getD_append_self h.cells (h.read owned) []
  · show (h.cells ++ [h.read owned]).getD owned [] = h.cells.getD owned []
    exact getD_append_lt h.cells [h.read owned] owned [] hv
  · show ((h.cells ++ [h.read owned]).set h.cells.length ys).getD owned []
        = h.cells.getD owned []
    rw [getD_set_ne _ owned h.cells.length ys [] (Nat.ne_of_lt hv)]
    exact getD_append_lt h.cells [h.read owned] owned [] hv

/-- C9: every copying accessor (`FlightPlan.waypoints`, `altitudes`,
`speeds`, `Flight.filed_plans`, `Scenario.get_flights`,
`Scenario.get_sectors`) returns a copy independent of the owner: the
returned object holds the owned contents, and any mutation of it (including
appending or removing elements) leaves the owner's stored list unchanged. -/
theorem accessor_defensive_copy :
    (∀ (h : PyHeap (List ℚ)) (owned : ℕ) (ys : List (List ℚ)), owned < h.cells.length →
      (FlightPlan.waypoints_ref h owned).1.read (FlightPlan.waypoints_ref h owned).2
          = h.read owned ∧
      ((FlightPlan.waypoints_ref h owned).1.write
          (FlightPlan.waypoints_ref h owned).2 ys).read owned = h.read owned) ∧
    (∀ (h : PyHeap ℚ) (owned : ℕ) (ys : List ℚ), owned < h.cells.length →
      (FlightPlan.altitudes_ref h owned).1.read (FlightPlan.altitudes_ref h owned).2
          = h.read owned ∧
      ((FlightPlan.altitudes_ref h owned).1.write
          (FlightPlan.altitudes_ref h owned).2 ys).read owned = h.read owned) ∧
    (∀ (h : PyHeap ℚ) (owned : ℕ) (ys : List ℚ), owned < h.cells.length →
      (FlightPlan.speeds_ref h owned).1.read (FlightPlan.speeds_ref h owned).2
          = h.read owned ∧
      ((FlightPlan.speeds_ref h owned).1.write
          (FlightPlan.speeds_ref h owned).2 ys).read owned = h.read owned) ∧
    (∀ (h : PyHeap FlightPlan) (owned : ℕ) (ys : List FlightPlan), owned < h.cells.length →
      (Flight.filed_plans_ref h owned).1.read (Flight.filed_plans_ref h owned).2
          = h.read owned ∧
      ((Flight.filed_plans_ref h owned).1.write
          (Flight.filed_plans_ref h owned).2 ys).read owned = h.read owned) ∧
    (∀ (h : PyHeap Flight) (owned : ℕ) (ys : List Flight), owned < h.cells.length →
      (Scenario.get_flights_ref h owned).1.read (Scenario.get_flights_ref h owned).2
          = h.read owned ∧
      ((Scenario.get_flights_ref h owned).1.write
          (Scenario.get_flights_ref h owned).2 ys).read owned = h.read owned) ∧
    (∀ (h : PyHeap Sector) (owned : ℕ) (ys : List Sector), owned < h.cells.length →
      (Scenario.get_sectors_ref h owned).1.read (Scenario.get_sectors_ref h owned).2
          = h.read owned ∧
      ((Scenario.get_sectors_ref h owned).1.write
          (Scenario.get_sectors_ref h owned).2 ys).read owned = h.read owned) := by
  refine ⟨fun h owned ys hv => ?_, fun h owned ys hv => ?_, fun h owned ys hv => ?_,
    fun h owned ys hv => ?_, fun h owned ys hv => ?_, fun h owned ys hv => ?_⟩ <;>
    exact ⟨(copyAccessor_frame h owned hv ys).1, (copyAccessor_frame h owned hv ys).2.2⟩

/-- Witness for C9: emptying the list returned by `get_flights` leaves the
scenario's one-flight collection unchanged on the heap. -/
theorem accessor_defensive_copy_witness :
    ((Scenario.get_flights_ref ⟨[[demoBuiltFlight]]⟩ 0).1.write
        (Scenario.get_flights_ref ⟨[[demoBuiltFlight]]⟩ 0).2 []).read 0
      = PyHeap.read ⟨[[demoBuiltFlight]]⟩ 0 ∧
    (Scenario.get_flights_ref ⟨[[demoBuiltFlight]]⟩ 0).1.read
        (Scenario.get_flights_ref ⟨[[demoBuiltFlight]]⟩ 0).2
      = PyHeap.read ⟨[[demoBuiltFlight]]⟩ 0 := by
  have t := accessor_defensive_copy.2.2.2.2.1 ⟨[[demoBuiltFlight]]⟩ 0 []
    (Nat.zero_lt_one)
  exact ⟨t.2, t.1⟩

end Spearhead
